import Mathlib

/-!
Verification development for the `html_to_pdf_converter.py` utility.

The Python program is modelled by a shallow embedding:
* the filesystem and the third-party PDF backends (WeasyPrint, ReportLab)
  are oracles packaged in an `Env` value, fixed for the whole process as
  the module-level backend probe fixes `PDF_METHOD`;
* Python exceptions become the `PyErr` sum (`fileNotFound` for
  `FileNotFoundError` / the spec's NotFound, `runtime` for the
  availability `RuntimeError` / the spec's Unavailable, `external` for
  errors raised by the backends or by file reads / the spec's
  ConversionFailed);
* functions that write to the filesystem additionally return a trace of
  `Effect`s (`os.makedirs` calls and PDF writes) so that ordering
  properties about directory creation can be stated;
* the BeautifulSoup `html.parser` pipeline used by the ReportLab fallback
  is modelled by a small HTML tokenizer and tree builder (third-party
  behaviour, not repository code), while the repository's own fallback
  logic (script/style stripping, title block, blank-line paragraph
  splitting) is translated line by line in `reportlabStory`.
-/

namespace HtmlToPdf

/-! Character-list implementations of the Python string primitives the
program uses (`startswith`, `endswith`, `lower`, `strip`, `split`).
They are plain structural recursions so that concrete runs reduce inside
the kernel. -/

/-- Python `s.startswith(pre)`. -/
def strStartsWith (s pre : String) : Bool :=
  pre.data.isPrefixOf s.data

/-- Python `s.endswith(post)`. -/
def strEndsWith (s post : String) : Bool :=
  post.data.isSuffixOf s.data

/-- Python `s.lower()` (ASCII range, as in the names handled here). -/
def strToLower (s : String) : String :=
  String.mk (s.data.map Char.toLower)

/-- Python whitespace for `str.strip()`. -/
def charIsSpace (c : Char) : Bool :=
  c = ' ' ∨ c = '\t' ∨ c = '\n' ∨ c = '\r' ∨ c = Char.ofNat 11 ∨ c = Char.ofNat 12

/-- Python `s.strip()`. -/
def strStrip (s : String) : String :=
  String.mk (((s.data.dropWhile charIsSpace).reverse.dropWhile charIsSpace).reverse)

/-- One pass of Python `s.split(sep)` over the character list: scan left
to right, cutting at each non-overlapping occurrence of `sep`. -/
def splitOnFuel (sep : List Char) : Nat → List Char → List Char → List (List Char)
  | 0, rest, acc => [acc.reverse ++ rest]
  | _ + 1, [], acc => [acc.reverse]
  | fuel + 1, c :: cs, acc =>
    if sep.isPrefixOf (c :: cs) then
      acc.reverse :: splitOnFuel sep fuel (List.drop sep.length (c :: cs)) []
    else splitOnFuel sep fuel cs (c :: acc)

/-- Python `s.split(sep)` for a non-empty separator. -/
def strSplitOn (s sep : String) : List String :=
  if sep.data.isEmpty then [s]
  else (splitOnFuel sep.data (s.data.length + 1) s.data []).map String.mk

/-- Posix `os.path.join` for two components, as used by the program. -/
def joinPath (a b : String) : String :=
  if strStartsWith b "/" then b
  else if a = "" then b
  else if strEndsWith a "/" then a ++ b
  else a ++ "/" ++ b

/-- The prefix that `joinPath a` prepends to a non-absolute second component. -/
def joinPre (a : String) : String :=
  if a = "" then ""
  else if strEndsWith a "/" then a
  else a ++ "/"

/-- Drop trailing slash characters. -/
def rstripSlash (l : List Char) : List Char :=
  (l.reverse.dropWhile (fun c => c = '/')).reverse

/-- Posix `os.path.dirname`: everything up to the last slash, with
trailing slashes stripped unless the head consists only of slashes. -/
def dirname (p : String) : String :=
  let head := (p.data.reverse.dropWhile (fun c => c ≠ '/')).reverse
  if head.all (fun c => c = '/') then String.mk head
  else String.mk (rstripSlash head)

/-- `pathlib.PurePosixPath(p).name`: the last component of the path,
after dropping empty and `.` components. -/
def pathName (p : String) : String :=
  let comps := (strSplitOn p "/").filter (fun c => c ≠ "" ∧ c ≠ ".")
  match comps.getLast? with
  | some c => c
  | none => ""

/-- `pathlib.PurePosixPath(p).stem`: the name without its final suffix;
a suffix is a dot at index `i` with `0 < i < len - 1`. -/
def pathStem (p : String) : String :=
  let name := pathName p
  let cs := name.data
  match cs.reverse.findIdx? (fun c => c = '.') with
  | some j =>
    let i := cs.length - 1 - j
    if 0 < i ∧ i < cs.length - 1 then String.mk (cs.take i) else name
  | none => name

/-- The two PDF backends the module-level probe can select. -/
inductive PDFMethod where
  | weasyprint
  | reportlab
deriving DecidableEq, Repr

/-- Python exceptions relevant to the converter.  `fileNotFound` is
`FileNotFoundError` (spec: NotFound), `runtime` is the availability
`RuntimeError` (spec: Unavailable), `external` is any error raised by a
third-party backend or a file read (spec: ConversionFailed). -/
inductive PyErr where
  | fileNotFound (msg : String)
  | runtime (msg : String)
  | external (msg : String)
deriving DecidableEq, Repr

/-- Python `str(e)`: the message carried by the exception. -/
def PyErr.message : PyErr → String
  | .fileNotFound m => m
  | .runtime m => m
  | .external m => m

/-- ReportLab flowables appended to the `story` list. -/
inductive Flowable where
  | paragraphTitle (text : String)
  | paragraphNormal (text : String)
  | spacer (w h : Nat)
deriving DecidableEq, Repr

/-- Filesystem oracle: `os.path.exists`, `os.listdir`, and reading a
file with `open(...).read()` (which may raise, e.g. `IsADirectoryError`). -/
structure FS where
  pathExists : String → Bool
  listdir : String → List String
  readFile : String → Except String String

/-- Oracles for the opaque third-party rendering calls. -/
structure Backends where
  weasyFile : String → String → Except String Unit
  weasyString : String → String → Except String Unit
  reportlabBuild : List Flowable → String → Except String Unit

/-- Process-wide environment: the backend selected at import time
(`PDF_METHOD`), whether `bs4` is importable, the filesystem and the
backend oracles. -/
structure Env where
  method : Option PDFMethod
  bs4Available : Bool
  bs4ErrorMsg : String
  fs : FS
  backends : Backends

/-- `PDF_GENERATION_AVAILABLE`: true exactly when a backend was selected. -/
def PDF_GENERATION_AVAILABLE (env : Env) : Bool :=
  env.method.isSome

/-- Filesystem side effects performed by a conversion. -/
inductive Effect where
  | mkdirs (path : String)
  | writePdf (path : String)
deriving DecidableEq, Repr

/-- The converter object: its only state is `output_directory`. -/
structure HTMLToPDFConverter where
  output_directory : String

/-- `HTMLToPDFConverter.__init__` / `ensure_output_directory`:
`os.makedirs(self.output_directory, exist_ok=True)` at construction. -/
def converterInitEffects (self : HTMLToPDFConverter) : List Effect :=
  [Effect.mkdirs self.output_directory]

/-! ### Modelled HTML parsing (third-party: BeautifulSoup + html.parser) -/

mutual
/-- Node of the parsed HTML tree: a text run or an element with children. -/
inductive HNode where
  | text (s : String)
  | elem (name : String) (children : HForest)
/-- A sequence of sibling nodes (the children of an element, or the
top-level document). -/
inductive HForest where
  | nil
  | cons (n : HNode) (f : HForest)
end

/-- Build a forest from a list of nodes (concrete-tree shorthand). -/
def HForest.ofList : List HNode → HForest
  | [] => HForest.nil
  | n :: ns => HForest.cons n (HForest.ofList ns)

/-- HTML token: an opening tag, a closing tag, or a text run. -/
inductive Tok where
  | openTag (name : String)
  | closeTag (name : String)
  | text (s : String)
deriving DecidableEq, Repr

/-- Split a character list at the first occurrence of `c`, dropping it. -/
def splitAtChar (c : Char) : List Char → (List Char × List Char)
  | [] => ([], [])
  | x :: xs =>
    if x = c then ([], xs)
    else
      let (a, b) := splitAtChar c xs
      (x :: a, b)

/-- Tag name: characters up to the first space, slash or tab, lowercased. -/
def tagName (cs : List Char) : String :=
  strToLower (String.mk (cs.takeWhile
    (fun ch => ch ≠ ' ' ∧ ch ≠ '/' ∧ ch ≠ '\t' ∧ ch ≠ '\n')))

/-- Classify the contents of one `<...>` group. -/
def parseTag (cs : List Char) : Option Tok :=
  match cs with
  | [] => none
  | '!' :: _ => none
  | '/' :: rest => some (Tok.closeTag (tagName rest))
  | _ => some (Tok.openTag (tagName cs))

/-- Modelled from the spec: the lexing half of the third-party
`html.parser` backing BeautifulSoup (the spec delegates HTML parsing to
an external "HTML tag-stripping parser").  Fuel-bounded tokenizer. -/
def tokenize : Nat → List Char → List Tok
  | 0, _ => []
  | _ + 1, [] => []
  | fuel + 1, c :: rest =>
    if c = '<' then
      let (tag, rest2) := splitAtChar '>' rest
      match parseTag tag with
      | some t => t :: tokenize fuel rest2
      | none => tokenize fuel rest2
    else
      let txt := (c :: rest).takeWhile (fun ch => ch ≠ '<')
      let rest2 := (c :: rest).dropWhile (fun ch => ch ≠ '<')
      Tok.text (String.mk txt) :: tokenize fuel rest2

/-- Modelled from the spec: the tree-building half of the third-party
parser; returns the children of the enclosing element plus the leftover
tokens after the matching close tag.  Unmatched close tags are dropped. -/
def buildNodes : Nat → List Tok → String → (HForest × List Tok)
  | 0, toks, _ => (HForest.nil, toks)
  | _ + 1, [], _ => (HForest.nil, [])
  | fuel + 1, Tok.text s :: rest, enc =>
    let (ns, rest2) := buildNodes fuel rest enc
    (HForest.cons (HNode.text s) ns, rest2)
  | fuel + 1, Tok.closeTag n :: rest, enc =>
    if n = enc then (HForest.nil, rest)
    else buildNodes fuel rest enc
  | fuel + 1, Tok.openTag n :: rest, enc =>
    let (children, rest2) := buildNodes fuel rest n
    let (ns, rest3) := buildNodes fuel rest2 enc
    (HForest.cons (HNode.elem n children) ns, rest3)

/-- Modelled from the spec: `BeautifulSoup(html_content, 'html.parser')`,
the external parser producing the document tree. -/
def parseHTML (s : String) : HForest :=
  (buildNodes (2 * s.length + 2) (tokenize (s.length + 1) s.data) "").1

mutual
/-- `decompose()` applied to one node: `none` when the node is a
`script` or `style` element, else the node with its children stripped. -/
def stripNode : HNode → Option HNode
  | HNode.text s => some (HNode.text s)
  | HNode.elem name children =>
    if name = "script" ∨ name = "style" then none
    else some (HNode.elem name (stripForest children))
/-- `decompose()` of every `script` and `style` element (the
`for script in soup(["script", "style"]): script.decompose()` loop). -/
def stripForest : HForest → HForest
  | HForest.nil => HForest.nil
  | HForest.cons n f =>
    match stripNode n with
    | some m => HForest.cons m (stripForest f)
    | none => stripForest f
end

mutual
/-- `get_text()` of one node. -/
def getTextNode : HNode → String
  | HNode.text s => s
  | HNode.elem _ children => getTextForest children
/-- `get_text()` of a forest: concatenation of all text runs in order. -/
def getTextForest : HForest → String
  | HForest.nil => ""
  | HForest.cons n f => getTextNode n ++ getTextForest f
end

mutual
/-- `soup.find('title')` looking at one node (pre-order). -/
def findTitleNode : HNode → Option HNode
  | HNode.text _ => none
  | HNode.elem name children =>
    if name = "title" then some (HNode.elem name children)
    else findTitleForest children
/-- `soup.find('title')`: first `title` element in document order. -/
def findTitleForest : HForest → Option HNode
  | HForest.nil => none
  | HForest.cons n f =>
    match findTitleNode n with
    | some t => some t
    | none => findTitleForest f
end

/-- Body of the paragraph loop (lines 199-202): skip blank paragraphs,
append a `Normal` paragraph of the stripped text plus a spacer. -/
def storyStep (story : List Flowable) (para : String) : List Flowable :=
  if strStrip para = "" then story
  else story ++ [Flowable.paragraphNormal (strStrip para), Flowable.spacer 1 6]

/-- Lines 177-205 of the source: parse result in, ReportLab story out.
Strips `script`/`style`, extracts the text, emits the title block when a
`title` element exists, splits the text on `'\n\n'` and appends each
non-blank stripped paragraph with a spacer. -/
def reportlabStory (soup : HForest) : List Flowable :=
  (strSplitOn (getTextForest (stripForest soup)) "\n\n").foldl storyStep
    (match findTitleForest (stripForest soup) with
     | some titleTag => [Flowable.paragraphTitle (getTextNode titleTag), Flowable.spacer 1 12]
     | none => [])

/-! ### The converter's operations -/

/-- `_convert_with_weasyprint_file`. -/
def convertWithWeasyprintFile (env : Env) (htmlFilePath outputPdfPath : String) :
    Except PyErr String × List Effect :=
  if env.method ≠ some PDFMethod.weasyprint then
    (Except.error (PyErr.runtime "WeasyPrint not available"), [])
  else
    match env.backends.weasyFile htmlFilePath outputPdfPath with
    | Except.ok _ =>
      (Except.ok outputPdfPath,
        [Effect.mkdirs (dirname outputPdfPath), Effect.writePdf outputPdfPath])
    | Except.error m =>
      (Except.error (PyErr.external m), [Effect.mkdirs (dirname outputPdfPath)])

/-- `_convert_with_weasyprint_string`. -/
def convertWithWeasyprintString (env : Env) (htmlContent outputPdfPath : String) :
    Except PyErr String × List Effect :=
  if env.method ≠ some PDFMethod.weasyprint then
    (Except.error (PyErr.runtime "WeasyPrint not available"), [])
  else
    match env.backends.weasyString htmlContent outputPdfPath with
    | Except.ok _ =>
      (Except.ok outputPdfPath,
        [Effect.mkdirs (dirname outputPdfPath), Effect.writePdf outputPdfPath])
    | Except.error m =>
      (Except.error (PyErr.external m), [Effect.mkdirs (dirname outputPdfPath)])

/-- `_convert_with_reportlab_string`. -/
def convertWithReportlabString (env : Env) (htmlContent outputPdfPath : String) :
    Except PyErr String × List Effect :=
  if env.bs4Available = false then
    (Except.error (PyErr.runtime
      ("Required libraries not available for ReportLab conversion: " ++ env.bs4ErrorMsg)), [])
  else
    match env.backends.reportlabBuild (reportlabStory (parseHTML htmlContent)) outputPdfPath with
    | Except.ok _ =>
      (Except.ok outputPdfPath,
        [Effect.mkdirs (dirname outputPdfPath), Effect.writePdf outputPdfPath])
    | Except.error m =>
      (Except.error (PyErr.external m), [Effect.mkdirs (dirname outputPdfPath)])

/-- `_convert_with_reportlab_file`: read the file, then convert the string. -/
def convertWithReportlabFile (env : Env) (htmlFilePath outputPdfPath : String) :
    Except PyErr String × List Effect :=
  match env.fs.readFile htmlFilePath with
  | Except.error m => (Except.error (PyErr.external m), [])
  | Except.ok htmlContent => convertWithReportlabString env htmlContent outputPdfPath

/-- Lines 74-78 of the source: the explicit output path when one is
passed, else `os.path.join(self.output_directory, f"{stem}.pdf")`. -/
def resolvedOutputPath (self : HTMLToPDFConverter) (htmlFilePath : String)
    (outputPdfPath? : Option String) : String :=
  match outputPdfPath? with
  | some p => p
  | none => joinPath self.output_directory (pathStem htmlFilePath ++ ".pdf")

/-- `convert_html_file_to_pdf`: availability check, existence check,
output-path derivation, dispatch on the selected backend.  The source's
`try/except` around the dispatch logs and re-raises, so it is the
identity on the outcome. -/
def convert_html_file_to_pdf (env : Env) (self : HTMLToPDFConverter)
    (htmlFilePath : String) (outputPdfPath? : Option String) :
    Except PyErr String × List Effect :=
  if PDF_GENERATION_AVAILABLE env = false then
    (Except.error (PyErr.runtime
      "PDF generation not available. Install weasyprint or reportlab."), [])
  else if env.fs.pathExists htmlFilePath = false then
    (Except.error (PyErr.fileNotFound ("HTML file not found: " ++ htmlFilePath)), [])
  else
    match env.method with
    | some PDFMethod.weasyprint =>
      convertWithWeasyprintFile env htmlFilePath (resolvedOutputPath self htmlFilePath outputPdfPath?)
    | some PDFMethod.reportlab =>
      convertWithReportlabFile env htmlFilePath (resolvedOutputPath self htmlFilePath outputPdfPath?)
    | none => (Except.error (PyErr.runtime "Unknown PDF method: None"), [])

/-- `convert_html_string_to_pdf`: availability check, dispatch. -/
def convert_html_string_to_pdf (env : Env) (self : HTMLToPDFConverter)
    (htmlContent outputPdfPath : String) :
    Except PyErr String × List Effect :=
  if PDF_GENERATION_AVAILABLE env = false then
    (Except.error (PyErr.runtime
      "PDF generation not available. Install weasyprint or reportlab."), [])
  else
    match env.method with
    | some PDFMethod.weasyprint => convertWithWeasyprintString env htmlContent outputPdfPath
    | some PDFMethod.reportlab => convertWithReportlabString env htmlContent outputPdfPath
    | none => (Except.error (PyErr.runtime "Unknown PDF method: None"), [])

/-- Python `dict` assignment `d[k] = v` on an insertion-ordered
association list: update in place when the key exists, else append. -/
def dictInsert (d : List (String × String)) (k v : String) : List (String × String) :=
  if d.any (fun kv => kv.1 == k) then
    d.map (fun kv => if kv.1 == k then (k, v) else kv)
  else d ++ [(k, v)]

/-- The batch filter (line 230): lowercased name ends with `.html`;
nothing else is checked, in particular not whether the entry is a file. -/
def isHtmlName (f : String) : Bool :=
  strEndsWith (strToLower f) ".html"

/-- One iteration of the batch loop (lines 239-251): derive the joined
HTML path and the `<outputDir>/<stem>.pdf` target, convert, record the
output path or the `"Error: "` string under the HTML path's key. -/
def batchStep (env : Env) (self : HTMLToPDFConverter)
    (htmlDirectory outputDirectory : String)
    (results : List (String × String)) (htmlFile : String) : List (String × String) :=
  match (convert_html_file_to_pdf env self (joinPath htmlDirectory htmlFile)
      (some (joinPath outputDirectory (pathStem htmlFile ++ ".pdf")))).1 with
  | Except.ok convertedPath =>
    dictInsert results (joinPath htmlDirectory htmlFile) convertedPath
  | Except.error e =>
    dictInsert results (joinPath htmlDirectory htmlFile) ("Error: " ++ e.message)

/-- `batch_convert_html_files`: directory existence check, case-insensitive
`.html` filter over the listing, early empty return, per-file loop. -/
def batch_convert_html_files (env : Env) (self : HTMLToPDFConverter)
    (htmlDirectory : String) (outputDirectory? : Option String) :
    Except PyErr (List (String × String)) :=
  if env.fs.pathExists htmlDirectory = false then
    Except.error (PyErr.fileNotFound ("HTML directory not found: " ++ htmlDirectory))
  else if ((env.fs.listdir htmlDirectory).filter isHtmlName).isEmpty then
    Except.ok []
  else
    Except.ok (((env.fs.listdir htmlDirectory).filter isHtmlName).foldl
      (batchStep env self htmlDirectory (outputDirectory?.getD self.output_directory)) [])

/-! ### CLI front-end -/

/-- The parsed argparse namespace. -/
structure Args where
  html : Option String
  output : Option String
  batch : Option String
  output_dir : String
  create_sample : Bool

/-- Python truthiness of an optional string argument: present and non-empty. -/
def argTruthy (o : Option String) : Bool :=
  match o with
  | some s => !(s == "")
  | none => false

/-- The four CLI modes. -/
inductive CliMode where
  | sampleCreation
  | singleFile
  | batchMode
  | usageHint
deriving DecidableEq, Repr

/-- The `if args.create_sample: ... elif args.html: ... elif args.batch:
... else: ...` dispatch of `main`. -/
def mainMode (args : Args) : CliMode :=
  if args.create_sample then CliMode.sampleCreation
  else if argTruthy args.html then CliMode.singleFile
  else if argTruthy args.batch then CliMode.batchMode
  else CliMode.usageHint

/-! ### Small auxiliary functions used only by theorem statements -/

/-- The value recorded for one file by a batch run whose keys are fresh:
the key is the joined HTML path, the value the converted path or the
formatted error string. -/
def batchEntry (env : Env) (self : HTMLToPDFConverter)
    (htmlDirectory outputDirectory : String) (htmlFile : String) : String × String :=
  (joinPath htmlDirectory htmlFile,
    match (convert_html_file_to_pdf env self (joinPath htmlDirectory htmlFile)
      (some (joinPath outputDirectory (pathStem htmlFile ++ ".pdf")))).1 with
    | Except.ok convertedPath => convertedPath
    | Except.error e => "Error: " ++ e.message)

/-- First-match lookup in an association list (Python `d[k]`). -/
def lookupKey (d : List (String × String)) (k : String) : Option String :=
  match d.find? (fun kv => kv.1 == k) with
  | some kv => some kv.2
  | none => none

/-- Every `writePdf out` in the trace is preceded by `mkdirs (dirname out)`. -/
def ensuresParent : List Effect → String → Bool
  | [], _ => true
  | Effect.mkdirs d :: rest, out =>
    if d = dirname out then true else ensuresParent rest out
  | Effect.writePdf p :: rest, out =>
    if p = out then false else ensuresParent rest out

/-- The texts of the `Normal`-styled paragraphs of a story, in order. -/
def normalTexts : List Flowable → List String
  | [] => []
  | Flowable.paragraphNormal t :: rest => t :: normalTexts rest
  | _ :: rest => normalTexts rest

/-- All text carried by a story, concatenated in order. -/
def storyText : List Flowable → String
  | [] => ""
  | Flowable.paragraphTitle t :: rest => t ++ storyText rest
  | Flowable.paragraphNormal t :: rest => t ++ storyText rest
  | Flowable.spacer _ _ :: rest => storyText rest

/-- Bool substring test: `pat` occurs contiguously in `s`. -/
def containsSub (s pat : String) : Bool :=
  (List.range (s.data.length + 1)).any
    (fun i => ((s.data.drop i).take pat.data.length) == pat.data)

/-! ### Helper lemmas -/

theorem string_append_cancel {s t u : String} (h : s ++ t = s ++ u) : t = u := by
  have h2 := congrArg String.data h
  simp only [String.data_append] at h2
  exact String.ext (List.append_cancel_left h2)

theorem joinPath_eq_pre (a : String) {b : String} (hb : strStartsWith b "/" = false) :
    joinPath a b = joinPre a ++ b := by
  unfold joinPath joinPre
  simp only [hb]
  by_cases h1 : a = "" <;> by_cases h2 : strEndsWith a "/" = true <;>
    simp [h1, h2]

theorem joinPath_inj (a : String) {b c : String} (hb : strStartsWith b "/" = false)
    (hc : strStartsWith c "/" = false) (h : joinPath a b = joinPath a c) : b = c := by
  rw [joinPath_eq_pre a hb, joinPath_eq_pre a hc] at h
  exact string_append_cancel h

theorem keys_nodup (dir : String) (p : String → Bool) {l : List String}
    (hnd : l.Nodup) (hsl : ∀ f ∈ l, strStartsWith f "/" = false) :
    ((l.filter p).map (joinPath dir)).Nodup := by
  apply List.Nodup.map_on
  · intro x hx y hy hxy
    exact joinPath_inj dir (hsl x (List.mem_of_mem_filter hx))
      (hsl y (List.mem_of_mem_filter hy)) hxy
  · exact hnd.filter p

theorem dictInsert_fresh {d : List (String × String)} {k : String} (v : String)
    (h : ∀ kv ∈ d, kv.1 ≠ k) : dictInsert d k v = d ++ [(k, v)] := by
  unfold dictInsert
  have hany : d.any (fun kv => kv.1 == k) = false := by
    simp only [List.any_eq_false]
    intro kv hkv
    simpa using h kv hkv
  simp [hany]

theorem batchEntry_fst (env : Env) (self : HTMLToPDFConverter)
    (dir outD f : String) : (batchEntry env self dir outD f).1 = joinPath dir f := rfl

theorem batchStep_fresh (env : Env) (self : HTMLToPDFConverter)
    (dir outD : String) {results : List (String × String)} (f : String)
    (h : ∀ kv ∈ results, kv.1 ≠ joinPath dir f) :
    batchStep env self dir outD results f
      = results ++ [batchEntry env self dir outD f] := by
  unfold batchStep batchEntry
  cases hres : (convert_html_file_to_pdf env self (joinPath dir f)
      (some (joinPath outD (pathStem f ++ ".pdf")))).1 with
  | ok q => exact dictInsert_fresh q h
  | error e => exact dictInsert_fresh ("Error: " ++ e.message) h

theorem batch_foldl_eq (env : Env) (self : HTMLToPDFConverter)
    (dir outD : String) (files : List String) :
    ∀ acc : List (String × String),
      (files.map (joinPath dir)).Nodup →
      (∀ f ∈ files, ∀ kv ∈ acc, kv.1 ≠ joinPath dir f) →
      files.foldl (batchStep env self dir outD) acc
        = acc ++ files.map (batchEntry env self dir outD) := by
  induction files with
  | nil =>
    intro acc _ _
    simp
  | cons f fs ih =>
    intro acc hnd hfresh
    simp only [List.map_cons, List.nodup_cons] at hnd
    simp only [List.foldl_cons, List.map_cons]
    rw [batchStep_fresh env self dir outD f (hfresh f (List.mem_cons_self f fs))]
    have hfresh2 : ∀ g ∈ fs, ∀ kv ∈ acc ++ [batchEntry env self dir outD f],
        kv.1 ≠ joinPath dir g := by
      intro g hg kv hkv
      rcases List.mem_append.mp hkv with hin | hin
      · exact hfresh g (List.mem_cons_of_mem f hg) kv hin
      · have hkv2 : kv = batchEntry env self dir outD f := by simpa using hin
        rw [hkv2, batchEntry_fst]
        intro he
        apply hnd.1
        rw [he]
        exact List.mem_map_of_mem (joinPath dir) hg
    rw [ih (acc ++ [batchEntry env self dir outD f]) hnd.2 hfresh2]
    simp

theorem batch_ok (env : Env) (self : HTMLToPDFConverter)
    (dir : String) (outD? : Option String)
    (hex : env.fs.pathExists dir = true)
    (hnd : (((env.fs.listdir dir).filter isHtmlName).map (joinPath dir)).Nodup) :
    batch_convert_html_files env self dir outD?
      = Except.ok (((env.fs.listdir dir).filter isHtmlName).map
          (batchEntry env self dir (outD?.getD self.output_directory))) := by
  unfold batch_convert_html_files
  rw [hex]
  simp only [Bool.true_eq_false, if_false]
  cases hemp : ((env.fs.listdir dir).filter isHtmlName).isEmpty with
  | true =>
    have hnil : (env.fs.listdir dir).filter isHtmlName = [] := by
      simpa using hemp
    simp [hnil]
  | false =>
    simp only [hemp, Bool.false_eq_true, if_false]
    rw [batch_foldl_eq env self dir (outD?.getD self.output_directory) _ [] hnd
      (by intro f _ kv hkv; simp at hkv)]
    simp

theorem lookupKey_of_mem {l : List (String × String)}
    (hnd : (l.map Prod.fst).Nodup) {k v : String}
    (hmem : (k, v) ∈ l) : lookupKey l k = some v := by
  induction l with
  | nil => simp at hmem
  | cons p rest ih =>
    simp only [List.map_cons, List.nodup_cons] at hnd
    rcases List.mem_cons.mp hmem with heq | hin
    · unfold lookupKey
      rw [← heq]
      simp [List.find?]
    · have hk : p.1 ≠ k := by
        intro hkk
        apply hnd.1
        rw [hkk]
        exact List.mem_map_of_mem Prod.fst hin
      have hb : (p.1 == k) = false := by simpa using hk
      unfold lookupKey
      simp only [List.find?, hb]
      exact ih hnd.2 hin

theorem normalTexts_append (a b : List Flowable) :
    normalTexts (a ++ b) = normalTexts a ++ normalTexts b := by
  induction a with
  | nil => simp [normalTexts]
  | cons x rest ih => cases x <;> simp [normalTexts, ih]

theorem storyStep_append (a b : List Flowable) (p : String) :
    storyStep (a ++ b) p = a ++ storyStep b p := by
  unfold storyStep
  by_cases h : strStrip p = "" <;> simp [h]

theorem foldl_storyStep_append (paras : List String) :
    ∀ a b : List Flowable,
      paras.foldl storyStep (a ++ b) = a ++ paras.foldl storyStep b := by
  induction paras with
  | nil =>
    intro a b
    simp
  | cons p ps ih =>
    intro a b
    simp only [List.foldl_cons]
    rw [storyStep_append, ih]

theorem normalTexts_foldl (paras : List String) :
    ∀ init : List Flowable,
      normalTexts (paras.foldl storyStep init)
        = normalTexts init
          ++ (paras.filter (fun p => !(strStrip p == ""))).map strStrip := by
  induction paras with
  | nil =>
    intro init
    simp
  | cons p ps ih =>
    intro init
    simp only [List.foldl_cons, List.filter_cons]
    by_cases h : strStrip p = ""
    · have hb : (!(strStrip p == "")) = false := by simp [h]
      have hs : storyStep init p = init := by simp [storyStep, h]
      rw [hs, ih init, hb]
      simp
    · have hb : (!(strStrip p == "")) = true := by simp [h]
      have hs : storyStep init p
          = init ++ [Flowable.paragraphNormal (strStrip p), Flowable.spacer 1 6] := by
        simp [storyStep, h]
      rw [hs, ih (init ++ [Flowable.paragraphNormal (strStrip p), Flowable.spacer 1 6]),
        normalTexts_append, hb]
      simp [normalTexts]

theorem convert_file_ok {env : Env} {self : HTMLToPDFConverter}
    {p : String} {out? : Option String} {q : String}
    (h : (convert_html_file_to_pdf env self p out?).1 = Except.ok q) :
    q = resolvedOutputPath self p out? := by
  simp only [convert_html_file_to_pdf, PDF_GENERATION_AVAILABLE] at h
  cases hm : env.method with
  | none => simp [hm] at h
  | some m =>
    simp only [hm, Option.isSome_some] at h
    rw [if_neg (by simp)] at h
    cases hex : env.fs.pathExists p with
    | false => simp only [hex] at h; simp at h
    | true =>
      simp only [hex] at h
      rw [if_neg (by simp)] at h
      cases m with
      | weasyprint =>
        simp only [convertWithWeasyprintFile] at h
        rw [if_neg (show ¬env.method ≠ some PDFMethod.weasyprint by simp [hm])] at h
        cases hb : env.backends.weasyFile p (resolvedOutputPath self p out?) with
        | ok u => rw [hb] at h; simp at h; exact h.symm
        | error msg => rw [hb] at h; simp at h
      | reportlab =>
        simp only [convertWithReportlabFile] at h
        cases hr : env.fs.readFile p with
        | error msg => rw [hr] at h; simp at h
        | ok content =>
          rw [hr] at h
          simp only [convertWithReportlabString] at h
          cases hbs : env.bs4Available with
          | false => rw [hbs] at h; simp at h
          | true =>
            rw [hbs] at h
            rw [if_neg (by simp)] at h
            cases hb : env.backends.reportlabBuild (reportlabStory (parseHTML content))
                (resolvedOutputPath self p out?) with
            | ok u => rw [hb] at h; simp at h; exact h.symm
            | error msg => rw [hb] at h; simp at h

theorem convert_file_reportlab_read_error (env : Env) (self : HTMLToPDFConverter)
    {p : String} (out? : Option String) {m : String}
    (hm : env.method = some PDFMethod.reportlab)
    (hex : env.fs.pathExists p = true)
    (hread : env.fs.readFile p = Except.error m) :
    (convert_html_file_to_pdf env self p out?).1 = Except.error (PyErr.external m) := by
  simp only [convert_html_file_to_pdf, PDF_GENERATION_AVAILABLE, hm, hex,
    Option.isSome_some]
  rw [if_neg (by simp), if_neg (by simp)]
  simp only [convertWithReportlabFile]
  rw [hread]

theorem traceSpec_weasyFile (env : Env) (p out : String) :
    ensuresParent (convertWithWeasyprintFile env p out).2 out = true ∧
    ∀ q, (convertWithWeasyprintFile env p out).1 = Except.ok q →
      (convertWithWeasyprintFile env p out).2
        = [Effect.mkdirs (dirname out), Effect.writePdf out] := by
  unfold convertWithWeasyprintFile
  by_cases hc : env.method ≠ some PDFMethod.weasyprint
  · rw [if_pos hc]
    exact ⟨rfl, by intro q h; simp at h⟩
  · rw [if_neg hc]
    cases hb : env.backends.weasyFile p out with
    | ok u => exact ⟨by simp [ensuresParent], by intro q h; rfl⟩
    | error m => exact ⟨by simp [ensuresParent], by intro q h; simp at h⟩

theorem traceSpec_weasyString (env : Env) (c out : String) :
    ensuresParent (convertWithWeasyprintString env c out).2 out = true ∧
    ∀ q, (convertWithWeasyprintString env c out).1 = Except.ok q →
      (convertWithWeasyprintString env c out).2
        = [Effect.mkdirs (dirname out), Effect.writePdf out] := by
  unfold convertWithWeasyprintString
  by_cases hc : env.method ≠ some PDFMethod.weasyprint
  · rw [if_pos hc]
    exact ⟨rfl, by intro q h; simp at h⟩
  · rw [if_neg hc]
    cases hb : env.backends.weasyString c out with
    | ok u => exact ⟨by simp [ensuresParent], by intro q h; rfl⟩
    | error m => exact ⟨by simp [ensuresParent], by intro q h; simp at h⟩

theorem traceSpec_reportlabString (env : Env) (c out : String) :
    ensuresParent (convertWithReportlabString env c out).2 out = true ∧
    ∀ q, (convertWithReportlabString env c out).1 = Except.ok q →
      (convertWithReportlabString env c out).2
        = [Effect.mkdirs (dirname out), Effect.writePdf out] := by
  unfold convertWithReportlabString
  by_cases hbs : env.bs4Available = false
  · rw [if_pos hbs]
    exact ⟨rfl, by intro q h; simp at h⟩
  · rw [if_neg hbs]
    cases hb : env.backends.reportlabBuild (reportlabStory (parseHTML c)) out with
    | ok u => exact ⟨by simp [ensuresParent], by intro q h; rfl⟩
    | error m => exact ⟨by simp [ensuresParent], by intro q h; simp at h⟩

theorem traceSpec_reportlabFile (env : Env) (p out : String) :
    ensuresParent (convertWithReportlabFile env p out).2 out = true ∧
    ∀ q, (convertWithReportlabFile env p out).1 = Except.ok q →
      (convertWithReportlabFile env p out).2
        = [Effect.mkdirs (dirname out), Effect.writePdf out] := by
  unfold convertWithReportlabFile
  cases hr : env.fs.readFile p with
  | error m => exact ⟨rfl, by intro q h; simp at h⟩
  | ok content => exact traceSpec_reportlabString env content out

/-! ### Concrete environments used by the witnesses -/

/-- Filesystem on which every path exists. -/
def fsTrue : FS :=
  ⟨fun _ => true, fun _ => [], fun _ => Except.ok ""⟩

/-- Filesystem on which no path exists. -/
def fsFalse : FS :=
  ⟨fun _ => false, fun _ => [], fun _ => Except.ok ""⟩

/-- Backends that always succeed. -/
def okBackends : Backends :=
  ⟨fun _ _ => Except.ok (), fun _ _ => Except.ok (), fun _ _ => Except.ok ()⟩

/-- WeasyPrint selected, every path exists. -/
def envWeasyOk : Env :=
  ⟨some PDFMethod.weasyprint, true, "", fsTrue, okBackends⟩

/-- WeasyPrint selected, no path exists. -/
def envWeasyNoFile : Env :=
  ⟨some PDFMethod.weasyprint, true, "", fsFalse, okBackends⟩

/-- No backend importable at startup. -/
def envNoBackend : Env :=
  ⟨none, false, "ImportError", fsTrue, okBackends⟩

/-- A directory listing with two HTML names (one upper-case) and one other. -/
def envBatch : Env :=
  ⟨some PDFMethod.weasyprint, true, "",
    ⟨fun _ => true, fun _ => ["a.html", "b.HTML", "notes.txt"], fun _ => Except.ok ""⟩,
    okBackends⟩

/-- A directory listing with no HTML names. -/
def envEmptyDir : Env :=
  ⟨some PDFMethod.weasyprint, true, "",
    ⟨fun _ => true, fun _ => ["readme.txt"], fun _ => Except.ok ""⟩,
    okBackends⟩

/-- ReportLab selected; `docs/bad.html` fails to read, the rest succeed. -/
def envMixed : Env :=
  ⟨some PDFMethod.reportlab, true, "",
    ⟨fun _ => true, fun _ => ["good.html", "bad.html"],
      fun q => if q == "docs/bad.html" then Except.error "boom" else Except.ok "<p>hi</p>"⟩,
    okBackends⟩

/-- ReportLab selected; the single listed `.html` entry is a directory,
so opening it for reading raises. -/
def envSubdir : Env :=
  ⟨some PDFMethod.reportlab, true, "",
    ⟨fun _ => true, fun _ => ["sub.html"], fun _ => Except.error "Is a directory"⟩,
    okBackends⟩

/-- The default converter of `main` (output directory `./pdf_outputs`). -/
def conv0 : HTMLToPDFConverter := ⟨"./pdf_outputs"⟩

/-- CLI namespace with an empty `--html` value and a `--batch` directory. -/
def cexArgs : Args := ⟨some "", none, some "/docs", "./pdf_outputs", false⟩

/-! ### The claims -/

/-- Claim C1: for every HTML path that does not exist on the filesystem,
`convert_html_file_to_pdf` fails with NotFound (`FileNotFoundError`)
whenever a backend was selected, and never fails with ConversionFailed
(a backend error), regardless of the output path argument. -/
theorem claim_C1_nonexistent_notfound (env : Env) (self : HTMLToPDFConverter)
    (p : String) (out? : Option String)
    (hne : env.fs.pathExists p = false) :
    (∀ m, env.method = some m →
      (convert_html_file_to_pdf env self p out?).1
        = Except.error (PyErr.fileNotFound ("HTML file not found: " ++ p))) ∧
    (∀ msg, (convert_html_file_to_pdf env self p out?).1
        ≠ Except.error (PyErr.external msg)) := by
  constructor
  · intro m hm
    simp [convert_html_file_to_pdf, PDF_GENERATION_AVAILABLE, hm, hne]
  · intro msg
    by_cases hav : env.method.isSome = false
    · simp [convert_html_file_to_pdf, PDF_GENERATION_AVAILABLE, hav]
    · simp [convert_html_file_to_pdf, PDF_GENERATION_AVAILABLE, hav, hne]

/-- Witness for C1 at a concrete nonexistent path. -/
theorem claim_C1_witness :
    envWeasyNoFile.fs.pathExists "missing.html" = false ∧
    (convert_html_file_to_pdf envWeasyNoFile conv0 "missing.html" none).1
      = Except.error (PyErr.fileNotFound ("HTML file not found: " ++ "missing.html")) :=
  ⟨rfl, (claim_C1_nonexistent_notfound envWeasyNoFile conv0 "missing.html" none
    rfl).1 PDFMethod.weasyprint rfl⟩

/-- Claim C2: for every existing HTML file converted with no explicit
output path, a returned path equals the configured output directory
joined with the input file's stem plus `.pdf`. -/
theorem claim_C2_derived_output_path (env : Env) (self : HTMLToPDFConverter)
    (p q : String) (_hex : env.fs.pathExists p = true)
    (hok : (convert_html_file_to_pdf env self p none).1 = Except.ok q) :
    q = joinPath self.output_directory (pathStem p ++ ".pdf") :=
  convert_file_ok hok

/-- Witness for C2 at a concrete conversion. -/
theorem claim_C2_witness :
    envWeasyOk.fs.pathExists "report.html" = true ∧
    "./pdf_outputs/report.pdf"
      = joinPath conv0.output_directory (pathStem "report.html" ++ ".pdf") :=
  ⟨rfl, claim_C2_derived_output_path envWeasyOk conv0 "report.html"
    "./pdf_outputs/report.pdf" rfl rfl⟩

/-- Claim C3: when no backend was selected at startup, every call of
`convert_html_file_to_pdf` and of `convert_html_string_to_pdf` fails
with the Unavailable `RuntimeError`, whose message names both missing
libraries, for all inputs. -/
theorem claim_C3_unavailable (env : Env) (self : HTMLToPDFConverter)
    (hnone : env.method = none) :
    (∀ p out?, (convert_html_file_to_pdf env self p out?).1
        = Except.error (PyErr.runtime
            "PDF generation not available. Install weasyprint or reportlab.")) ∧
    (∀ c outP, (convert_html_string_to_pdf env self c outP).1
        = Except.error (PyErr.runtime
            "PDF generation not available. Install weasyprint or reportlab.")) ∧
    containsSub "PDF generation not available. Install weasyprint or reportlab."
      "weasyprint" = true ∧
    containsSub "PDF generation not available. Install weasyprint or reportlab."
      "reportlab" = true := by
  refine ⟨?_, ?_, by decide, by decide⟩
  · intro p out?
    simp [convert_html_file_to_pdf, PDF_GENERATION_AVAILABLE, hnone]
  · intro c outP
    simp [convert_html_string_to_pdf, PDF_GENERATION_AVAILABLE, hnone]

/-- Witness for C3 at concrete inputs. -/
theorem claim_C3_witness :
    (convert_html_file_to_pdf envNoBackend conv0 "a.html" none).1
      = Except.error (PyErr.runtime
          "PDF generation not available. Install weasyprint or reportlab.") ∧
    (convert_html_string_to_pdf envNoBackend conv0 "<p>x</p>" "o.pdf").1
      = Except.error (PyErr.runtime
          "PDF generation not available. Install weasyprint or reportlab.") :=
  ⟨(claim_C3_unavailable envNoBackend conv0 rfl).1 "a.html" none,
   (claim_C3_unavailable envNoBackend conv0 rfl).2.1 "<p>x</p>" "o.pdf"⟩

/-- Claim C4: for an existing directory, the batch report has exactly one
entry per listed name ending in `.html` case-insensitively, keyed by the
joined path, with no duplicate keys, in directory listing order. -/
theorem claim_C4_batch_entries (env : Env) (self : HTMLToPDFConverter)
    (dir : String) (outD? : Option String)
    (hex : env.fs.pathExists dir = true)
    (hnd : (env.fs.listdir dir).Nodup)
    (hsl : ∀ f ∈ env.fs.listdir dir, strStartsWith f "/" = false) :
    ∃ report, batch_convert_html_files env self dir outD? = Except.ok report ∧
      report.map Prod.fst
        = ((env.fs.listdir dir).filter isHtmlName).map (joinPath dir) ∧
      report.length = ((env.fs.listdir dir).filter isHtmlName).length ∧
      (report.map Prod.fst).Nodup := by
  have hknd := keys_nodup dir isHtmlName hnd hsl
  have hmap : ((((env.fs.listdir dir).filter isHtmlName).map
      (batchEntry env self dir (outD?.getD self.output_directory))).map Prod.fst)
      = ((env.fs.listdir dir).filter isHtmlName).map (joinPath dir) := by
    rw [List.map_map]
    rfl
  refine ⟨_, batch_ok env self dir outD? hex hknd, hmap, ?_, ?_⟩
  · simp
  · rw [hmap]
    exact hknd

/-- Witness for C4 on a listing with two HTML names and one other. -/
theorem claim_C4_witness :
    envBatch.fs.pathExists "docs" = true ∧
    (envBatch.fs.listdir "docs").Nodup ∧
    ∃ report, batch_convert_html_files envBatch conv0 "docs" none = Except.ok report ∧
      report.map Prod.fst
        = ((envBatch.fs.listdir "docs").filter isHtmlName).map (joinPath "docs") ∧
      report.length = ((envBatch.fs.listdir "docs").filter isHtmlName).length ∧
      (report.map Prod.fst).Nodup :=
  ⟨rfl, by decide,
    claim_C4_batch_entries envBatch conv0 "docs" none rfl (by decide) (by decide)⟩

/-- Claim C5: a batch over an existing directory with no `.html` entries
returns an empty report without raising, and a batch raises NotFound
exactly when the input directory does not exist. -/
theorem claim_C5_empty_dir (env : Env) (self : HTMLToPDFConverter)
    (dir : String) (outD? : Option String) :
    (env.fs.pathExists dir = true →
      (env.fs.listdir dir).filter isHtmlName = [] →
      batch_convert_html_files env self dir outD? = Except.ok []) ∧
    (∀ e, batch_convert_html_files env self dir outD? = Except.error e →
      env.fs.pathExists dir = false ∧
      e = PyErr.fileNotFound ("HTML directory not found: " ++ dir)) := by
  constructor
  · intro hex hnil
    unfold batch_convert_html_files
    rw [hex]
    simp [hnil]
  · intro e herr
    unfold batch_convert_html_files at herr
    cases hex : env.fs.pathExists dir with
    | false =>
      simp only [hex] at herr
      simp at herr
      exact ⟨rfl, herr.symm⟩
    | true =>
      simp only [hex] at herr
      exfalso
      by_cases hemp : ((env.fs.listdir dir).filter isHtmlName).isEmpty = true
      · simp [hemp] at herr
      · simp [hemp] at herr

/-- Witness for C5: a non-HTML directory yields `ok []`; a missing
directory is the NotFound case. -/
theorem claim_C5_witness :
    batch_convert_html_files envEmptyDir conv0 "docs" none = Except.ok [] ∧
    envWeasyNoFile.fs.pathExists "docs" = false :=
  ⟨(claim_C5_empty_dir envEmptyDir conv0 "docs" none).1 rfl (by decide),
   ((claim_C5_empty_dir envWeasyNoFile conv0 "docs" none).2
     (PyErr.fileNotFound ("HTML directory not found: " ++ "docs")) rfl).1⟩

/-- Claim C6: every per-file conversion error in a batch is caught and
recorded as `"Error: " ++ message` under that file's key, a successful
conversion is recorded as its output path, and the report always carries
the full filtered listing, so one file's failure never removes or alters
any other file's entry. -/
theorem claim_C6_per_file_isolation (env : Env) (self : HTMLToPDFConverter)
    (dir : String) (outD? : Option String)
    (hex : env.fs.pathExists dir = true)
    (hnd : (env.fs.listdir dir).Nodup)
    (hsl : ∀ f ∈ env.fs.listdir dir, strStartsWith f "/" = false) :
    ∃ report, batch_convert_html_files env self dir outD? = Except.ok report ∧
      report = ((env.fs.listdir dir).filter isHtmlName).map
        (batchEntry env self dir (outD?.getD self.output_directory)) ∧
      ∀ f ∈ (env.fs.listdir dir).filter isHtmlName,
        (∀ e, (convert_html_file_to_pdf env self (joinPath dir f)
            (some (joinPath (outD?.getD self.output_directory)
              (pathStem f ++ ".pdf")))).1 = Except.error e →
          lookupKey report (joinPath dir f) = some ("Error: " ++ e.message)) ∧
        (∀ q, (convert_html_file_to_pdf env self (joinPath dir f)
            (some (joinPath (outD?.getD self.output_directory)
              (pathStem f ++ ".pdf")))).1 = Except.ok q →
          lookupKey report (joinPath dir f) = some q) := by
  have hknd := keys_nodup dir isHtmlName hnd hsl
  refine ⟨_, batch_ok env self dir outD? hex hknd, rfl, ?_⟩
  intro f hf
  have hndk : ((((env.fs.listdir dir).filter isHtmlName).map
      (batchEntry env self dir (outD?.getD self.output_directory))).map Prod.fst).Nodup := by
    rw [List.map_map]
    exact hknd
  constructor
  · intro e he
    have hval : batchEntry env self dir (outD?.getD self.output_directory) f
        = (joinPath dir f, "Error: " ++ e.message) := by
      unfold batchEntry
      rw [he]
    have hmem : (joinPath dir f, "Error: " ++ e.message)
        ∈ ((env.fs.listdir dir).filter isHtmlName).map
          (batchEntry env self dir (outD?.getD self.output_directory)) := by
      rw [← hval]
      exact List.mem_map_of_mem _ hf
    exact lookupKey_of_mem hndk hmem
  · intro q hq
    have hval : batchEntry env self dir (outD?.getD self.output_directory) f
        = (joinPath dir f, q) := by
      unfold batchEntry
      rw [hq]
    have hmem : (joinPath dir f, q)
        ∈ ((env.fs.listdir dir).filter isHtmlName).map
          (batchEntry env self dir (outD?.getD self.output_directory)) := by
      rw [← hval]
      exact List.mem_map_of_mem _ hf
    exact lookupKey_of_mem hndk hmem

/-- Witness for C6: one failing and one succeeding file in one batch. -/
theorem claim_C6_witness :
    ∃ report, batch_convert_html_files envMixed conv0 "docs" (some "out")
        = Except.ok report ∧
      lookupKey report (joinPath "docs" "bad.html") = some ("Error: " ++ "boom") ∧
      lookupKey report (joinPath "docs" "good.html") = some "out/good.pdf" := by
  rcases claim_C6_per_file_isolation envMixed conv0 "docs" (some "out") rfl
    (by decide) (by decide) with ⟨report, hok, hrep, hall⟩
  exact ⟨report, hok,
    (hall "bad.html" (by decide)).1 (PyErr.external "boom") rfl,
    (hall "good.html" (by decide)).2 "out/good.pdf" rfl⟩

/-- Claim C7: the fallback (ReportLab) conversion strips `script` and
`style` elements before text extraction, emits the document title (when
present) as the leading title block, splits the extracted text on blank
lines and keeps each non-empty stripped paragraph in order; on the input
`<title>Demo</title><p>A</p><p></p><p>B</p>` the story carries "Demo",
"A" and "B". -/
theorem claim_C7_fallback_rendering :
    (∀ ch rest, reportlabStory (HForest.cons (HNode.elem "script" ch) rest)
      = reportlabStory rest) ∧
    (∀ ch rest, reportlabStory (HForest.cons (HNode.elem "style" ch) rest)
      = reportlabStory rest) ∧
    (∀ soup t, findTitleForest (stripForest soup) = some t →
      ∃ restStory, reportlabStory soup
        = Flowable.paragraphTitle (getTextNode t) :: Flowable.spacer 1 12 :: restStory) ∧
    (∀ soup, normalTexts (reportlabStory soup)
      = ((strSplitOn (getTextForest (stripForest soup)) "\n\n").filter
          (fun p => !(strStrip p == ""))).map strStrip) ∧
    reportlabStory (parseHTML "<title>Demo</title><p>A</p><p></p><p>B</p>")
      = [Flowable.paragraphTitle "Demo", Flowable.spacer 1 12,
         Flowable.paragraphNormal "DemoAB", Flowable.spacer 1 6] ∧
    containsSub (storyText (reportlabStory
      (parseHTML "<title>Demo</title><p>A</p><p></p><p>B</p>"))) "Demo" = true ∧
    containsSub (storyText (reportlabStory
      (parseHTML "<title>Demo</title><p>A</p><p></p><p>B</p>"))) "A" = true ∧
    containsSub (storyText (reportlabStory
      (parseHTML "<title>Demo</title><p>A</p><p></p><p>B</p>"))) "B" = true := by
  refine ⟨?_, ?_, ?_, ?_, rfl, by decide, by decide, by decide⟩
  · intro ch rest
    unfold reportlabStory
    have h : stripForest (HForest.cons (HNode.elem "script" ch) rest)
        = stripForest rest := by
      simp [stripForest, stripNode]
    rw [h]
  · intro ch rest
    unfold reportlabStory
    have h : stripForest (HForest.cons (HNode.elem "style" ch) rest)
        = stripForest rest := by
      simp [stripForest, stripNode]
    rw [h]
  · intro soup t h
    unfold reportlabStory
    rw [h]
    refine ⟨(strSplitOn (getTextForest (stripForest soup)) "\n\n").foldl storyStep [], ?_⟩
    have h2 := foldl_storyStep_append
      (strSplitOn (getTextForest (stripForest soup)) "\n\n")
      [Flowable.paragraphTitle (getTextNode t), Flowable.spacer 1 12] []
    simpa using h2
  · intro soup
    unfold reportlabStory
    rw [normalTexts_foldl]
    cases h : findTitleForest (stripForest soup) with
    | some t => simp [normalTexts]
    | none => simp [normalTexts]

/-- Witness for C7: the title conjunct applied at a concrete document. -/
theorem claim_C7_witness :
    ∃ restStory,
      reportlabStory (HForest.cons
        (HNode.elem "title" (HForest.cons (HNode.text "T") HForest.nil)) HForest.nil)
        = Flowable.paragraphTitle (getTextNode
            (HNode.elem "title" (HForest.cons (HNode.text "T") HForest.nil)))
          :: Flowable.spacer 1 12 :: restStory :=
  claim_C7_fallback_rendering.2.2.1
    (HForest.cons (HNode.elem "title" (HForest.cons (HNode.text "T") HForest.nil))
      HForest.nil)
    (HNode.elem "title" (HForest.cons (HNode.text "T") HForest.nil)) rfl

/-- Claim C8: every conversion's effect trace creates the parent
directory of the output path (with `os.makedirs`) before the PDF write,
and a successful conversion's trace is exactly that `makedirs` followed
by the write at the resolved output path. -/
theorem claim_C8_parent_dir (env : Env) (self : HTMLToPDFConverter)
    (htmlFilePath content : String) (out? : Option String) (out : String) :
    ensuresParent (convert_html_string_to_pdf env self content out).2 out = true ∧
    (∀ q, (convert_html_string_to_pdf env self content out).1 = Except.ok q →
      (convert_html_string_to_pdf env self content out).2
        = [Effect.mkdirs (dirname out), Effect.writePdf out]) ∧
    ensuresParent (convert_html_file_to_pdf env self htmlFilePath out?).2
      (resolvedOutputPath self htmlFilePath out?) = true ∧
    (∀ q, (convert_html_file_to_pdf env self htmlFilePath out?).1 = Except.ok q →
      (convert_html_file_to_pdf env self htmlFilePath out?).2
        = [Effect.mkdirs (dirname (resolvedOutputPath self htmlFilePath out?)),
           Effect.writePdf (resolvedOutputPath self htmlFilePath out?)]) := by
  refine ⟨?_, ?_, ?_, ?_⟩
  · unfold convert_html_string_to_pdf
    by_cases hav : PDF_GENERATION_AVAILABLE env = false
    · rw [if_pos hav]
      rfl
    · rw [if_neg hav]
      cases env.method with
      | none => rfl
      | some m =>
        cases m with
        | weasyprint => exact (traceSpec_weasyString env content out).1
        | reportlab => exact (traceSpec_reportlabString env content out).1
  · intro q hok
    unfold convert_html_string_to_pdf at hok ⊢
    by_cases hav : PDF_GENERATION_AVAILABLE env = false
    · rw [if_pos hav] at hok
      simp at hok
    · rw [if_neg hav] at hok ⊢
      revert hok
      cases env.method with
      | none =>
        intro hok
        simp at hok
      | some m =>
        cases m with
        | weasyprint =>
          intro hok
          exact (traceSpec_weasyString env content out).2 q hok
        | reportlab =>
          intro hok
          exact (traceSpec_reportlabString env content out).2 q hok
  · unfold convert_html_file_to_pdf
    by_cases hav : PDF_GENERATION_AVAILABLE env = false
    · rw [if_pos hav]
      rfl
    · rw [if_neg hav]
      by_cases hne : env.fs.pathExists htmlFilePath = false
      · rw [if_pos hne]
        rfl
      · rw [if_neg hne]
        cases env.method with
        | none => rfl
        | some m =>
          cases m with
          | weasyprint =>
            exact (traceSpec_weasyFile env htmlFilePath
              (resolvedOutputPath self htmlFilePath out?)).1
          | reportlab =>
            exact (traceSpec_reportlabFile env htmlFilePath
              (resolvedOutputPath self htmlFilePath out?)).1
  · intro q hok
    unfold convert_html_file_to_pdf at hok ⊢
    by_cases hav : PDF_GENERATION_AVAILABLE env = false
    · rw [if_pos hav] at hok
      simp at hok
    · rw [if_neg hav] at hok ⊢
      by_cases hne : env.fs.pathExists htmlFilePath = false
      · rw [if_pos hne] at hok
        simp at hok
      · rw [if_neg hne] at hok ⊢
        revert hok
        cases env.method with
        | none =>
          intro hok
          simp at hok
        | some m =>
          cases m with
          | weasyprint =>
            intro hok
            exact (traceSpec_weasyFile env htmlFilePath
              (resolvedOutputPath self htmlFilePath out?)).2 q hok
          | reportlab =>
            intro hok
            exact (traceSpec_reportlabFile env htmlFilePath
              (resolvedOutputPath self htmlFilePath out?)).2 q hok

/-- Witness for C8: the trace of a concrete successful string conversion. -/
theorem claim_C8_witness :
    (convert_html_string_to_pdf envWeasyOk conv0 "<p>x</p>" "out/a.pdf").2
      = [Effect.mkdirs (dirname "out/a.pdf"), Effect.writePdf "out/a.pdf"] :=
  (claim_C8_parent_dir envWeasyOk conv0 "b.html" "<p>x</p>" none
    "out/a.pdf").2.1 "out/a.pdf" rfl

/-- Claim C9 counterexample: with `--html ''` (given but empty) and
`--batch /docs`, the CLI runs batch mode, not single-file mode, because
the dispatch tests Python truthiness of the string, not presence. -/
theorem claim_C9_counterexample :
    cexArgs.create_sample = false ∧ cexArgs.html.isSome = true ∧
    mainMode cexArgs ≠ CliMode.singleFile ∧ mainMode cexArgs = CliMode.batchMode := by
  refine ⟨rfl, rfl, ?_, rfl⟩
  decide

/-- Claim C9 (amended): the CLI dispatches exactly one mode by
first-match precedence on `create_sample`, then a non-empty `--html`,
then a non-empty `--batch`, else the usage hint. -/
theorem claim_C9_dispatch (args : Args) :
    (args.create_sample = true → mainMode args = CliMode.sampleCreation) ∧
    (args.create_sample = false → argTruthy args.html = true →
      mainMode args = CliMode.singleFile) ∧
    (args.create_sample = false → argTruthy args.html = false →
      argTruthy args.batch = true → mainMode args = CliMode.batchMode) ∧
    (args.create_sample = false → argTruthy args.html = false →
      argTruthy args.batch = false → mainMode args = CliMode.usageHint) := by
  refine ⟨?_, ?_, ?_, ?_⟩
  · intro h1
    simp [mainMode, h1]
  · intro h1 h2
    simp [mainMode, h1, h2]
  · intro h1 h2 h3
    simp [mainMode, h1, h2, h3]
  · intro h1 h2 h3
    simp [mainMode, h1, h2, h3]

/-- Witness for C9: single-file mode at a concrete invocation. -/
theorem claim_C9_witness :
    mainMode ⟨some "a.html", none, none, "./pdf_outputs", false⟩
      = CliMode.singleFile :=
  (claim_C9_dispatch ⟨some "a.html", none, none, "./pdf_outputs", false⟩).2.1 rfl rfl

/-- Claim C10: the batch filter looks only at the lowercased name ending
in `.html`; an existing directory entry of that shape that cannot be
read (for example a subdirectory) is still included and its report entry
becomes an error string rather than being skipped. -/
theorem claim_C10_nonfile_entry (env : Env) (self : HTMLToPDFConverter)
    (dir : String) (outD? : Option String) (d m : String)
    (hex : env.fs.pathExists dir = true)
    (hnd : (env.fs.listdir dir).Nodup)
    (hsl : ∀ f ∈ env.fs.listdir dir, strStartsWith f "/" = false)
    (hmem : d ∈ env.fs.listdir dir)
    (hhtml : isHtmlName d = true)
    (hde : env.fs.pathExists (joinPath dir d) = true)
    (hread : env.fs.readFile (joinPath dir d) = Except.error m)
    (hm : env.method = some PDFMethod.reportlab) :
    ∃ report, batch_convert_html_files env self dir outD? = Except.ok report ∧
      lookupKey report (joinPath dir d) = some ("Error: " ++ m) := by
  have hknd := keys_nodup dir isHtmlName hnd hsl
  refine ⟨_, batch_ok env self dir outD? hex hknd, ?_⟩
  have hconv : (convert_html_file_to_pdf env self (joinPath dir d)
      (some (joinPath (outD?.getD self.output_directory) (pathStem d ++ ".pdf")))).1
      = Except.error (PyErr.external m) :=
    convert_file_reportlab_read_error env self _ hm hde hread
  have hval : batchEntry env self dir (outD?.getD self.output_directory) d
      = (joinPath dir d, "Error: " ++ m) := by
    unfold batchEntry
    rw [hconv]
    rfl
  have hf : d ∈ (env.fs.listdir dir).filter isHtmlName :=
    List.mem_filter.mpr ⟨hmem, hhtml⟩
  have hndk : ((((env.fs.listdir dir).filter isHtmlName).map
      (batchEntry env self dir (outD?.getD self.output_directory))).map Prod.fst).Nodup := by
    rw [List.map_map]
    exact hknd
  have hmem2 : (joinPath dir d, "Error: " ++ m)
      ∈ ((env.fs.listdir dir).filter isHtmlName).map
        (batchEntry env self dir (outD?.getD self.output_directory)) := by
    rw [← hval]
    exact List.mem_map_of_mem _ hf
  exact lookupKey_of_mem hndk hmem2

/-- Witness for C10: a listed `sub.html` entry whose read raises (a
directory) still gets an error-string entry in the report. -/
theorem claim_C10_witness :
    ∃ report, batch_convert_html_files envSubdir conv0 "docs" none = Except.ok report ∧
      lookupKey report (joinPath "docs" "sub.html")
        = some ("Error: " ++ "Is a directory") :=
  claim_C10_nonfile_entry envSubdir conv0 "docs" none "sub.html" "Is a directory"
    rfl (by decide) (by decide) (by decide) (by decide) rfl rfl rfl

end HtmlToPdf
